import Mathlib

/-!
Verification of the FraudGuard ledger contract.

The contract (`contract FraudGuard`) keeps a keyed store of transaction
records governed by a small state machine, gated by a single-owner /
multi-relayer authorization model.  We embed its state and every public
operation shallowly: addresses and 32-byte hashes become `Nat` (with `0`
playing the role of the zero address / zero hash), Solidity mappings become
total functions with the Solidity default value, and `require`-failures
become `Except.error` values carrying the revert cause.  A reverting call
leaves the state unchanged, which the `step` function below makes explicit.
-/

namespace FraudGuard

/-- `enum TxStatus { Pending, Held, Verified, Rejected, Completed }`. -/
inductive TxStatus where
  | Pending
  | Held
  | Verified
  | Rejected
  | Completed
  deriving DecidableEq, Repr

/-- `struct Transaction` of the contract. -/
structure Transaction where
  txHash : Nat
  sender : Nat
  amount : Nat
  timestamp : Nat
  status : TxStatus
  reason : String
  deriving DecidableEq, Repr

/-- The Solidity default value of `Transaction` (what an untouched mapping
slot holds): all fields zeroed, status `Pending` (ordinal 0), empty reason. -/
def defaultTransaction : Transaction :=
  { txHash := 0, sender := 0, amount := 0, timestamp := 0,
    status := TxStatus.Pending, reason := "" }

/-- The contract's storage: `owner`, `relayer` (the primary relayer),
`mapping(bytes32 => Transaction) transactions`,
`mapping(address => bool) authorizedRelayers`. -/
structure FGState where
  owner : Nat
  relayer : Nat
  transactions : Nat → Transaction
  authorizedRelayers : Nat → Bool

/-- Mapping store: `transactions[k] = v`. -/
def setTx (m : Nat → Transaction) (k : Nat) (v : Transaction) : Nat → Transaction :=
  fun j => if j = k then v else m j

/-- Mapping store: `authorizedRelayers[k] = v`. -/
def setAuth (m : Nat → Bool) (k : Nat) (v : Bool) : Nat → Bool :=
  fun j => if j = k then v else m j

/-- The revert causes that the contract's `require` messages distinguish. -/
inductive FGError where
  | AuthorizationError
  | NotFoundError
  | DuplicateError
  | InvalidStateError
  | ValidationError
  deriving DecidableEq, Repr

/-- The `constructor`: the deployer becomes `owner`, primary `relayer`, and
is entered into `authorizedRelayers`. -/
def initState (deployer : Nat) : FGState :=
  { owner := deployer
    relayer := deployer
    transactions := fun _ => defaultTransaction
    authorizedRelayers := setAuth (fun _ => false) deployer true }

/-- The condition of the `onlyRelayer` modifier:
`msg.sender == relayer || authorizedRelayers[msg.sender]`. -/
def isAuthorizedRelayer (σ : FGState) (caller : Nat) : Bool :=
  caller == σ.relayer || σ.authorizedRelayers caller

/-- `submitTxHash(_txHash, _sender, _amount)` — callable by anyone.
Checks, in source order: `transactions[_txHash].txHash == 0` (else
"Transaction already exists"), then `_amount > 0` (else "Amount must be
greater than 0"); on success stores a fresh `Pending` record. -/
def submitTxHash (σ : FGState) (now h s amount : Nat) : Except FGError FGState :=
  if (σ.transactions h).txHash ≠ 0 then
    Except.error FGError.DuplicateError
  else if 0 < amount then
    let fresh : Transaction :=
      { txHash := h, sender := s, amount := amount, timestamp := now,
        status := TxStatus.Pending, reason := "" }
    Except.ok { σ with transactions := setTx σ.transactions h fresh }
  else
    Except.error FGError.ValidationError

/-- `setVerification(_txHash, _verified, _reason)` — `onlyRelayer`.
Requires the record to exist (`txData.txHash != 0`); no precondition on the
current status.  Sets status to `Verified` or `Rejected` and overwrites the
reason. -/
def setVerification (σ : FGState) (caller now h : Nat) (verified : Bool)
    (reason : String) : Except FGError FGState :=
  if isAuthorizedRelayer σ caller then
    let txData := σ.transactions h
    if txData.txHash = 0 then
      Except.error FGError.NotFoundError
    else if verified then
      Except.ok { σ with transactions := setTx σ.transactions h { txData with status := TxStatus.Verified, reason := reason } }
    else
      Except.ok { σ with transactions := setTx σ.transactions h { txData with status := TxStatus.Rejected, reason := reason } }
  else
    Except.error FGError.AuthorizationError

/-- `holdTransaction(_txHash, _reason)` — `onlyRelayer`.  Requires existence
and `status == Pending`; moves the record to `Held` with the given reason. -/
def holdTransaction (σ : FGState) (caller now h : Nat) (reason : String) :
    Except FGError FGState :=
  if isAuthorizedRelayer σ caller then
    let txData := σ.transactions h
    if txData.txHash = 0 then
      Except.error FGError.NotFoundError
    else if txData.status = TxStatus.Pending then
      Except.ok { σ with transactions := setTx σ.transactions h { txData with status := TxStatus.Held, reason := reason } }
    else
      Except.error FGError.InvalidStateError
  else
    Except.error FGError.AuthorizationError

/-- `releaseHeldTransaction(_txHash, _approved, _reason)` — `onlyOwner`.
Requires existence and `status == Held`; moves to `Verified` or `Rejected`. -/
def releaseHeldTransaction (σ : FGState) (caller now h : Nat) (approved : Bool)
    (reason : String) : Except FGError FGState :=
  if caller = σ.owner then
    let txData := σ.transactions h
    if txData.txHash = 0 then
      Except.error FGError.NotFoundError
    else if txData.status = TxStatus.Held then
      if approved then
        Except.ok { σ with transactions := setTx σ.transactions h { txData with status := TxStatus.Verified, reason := reason } }
      else
        Except.ok { σ with transactions := setTx σ.transactions h { txData with status := TxStatus.Rejected, reason := reason } }
    else
      Except.error FGError.InvalidStateError
  else
    Except.error FGError.AuthorizationError

/-- `completeTransaction(_txHash)` — `onlyOwner`.  Requires existence and
`status == Verified`; moves to `Completed` (reason untouched). -/
def completeTransaction (σ : FGState) (caller now h : Nat) :
    Except FGError FGState :=
  if caller = σ.owner then
    let txData := σ.transactions h
    if txData.txHash = 0 then
      Except.error FGError.NotFoundError
    else if txData.status = TxStatus.Verified then
      Except.ok { σ with transactions := setTx σ.transactions h { txData with status := TxStatus.Completed } }
    else
      Except.error FGError.InvalidStateError
  else
    Except.error FGError.AuthorizationError

/-- `isHeld(_txHash)` — view; returns
`(txData.status == TxStatus.Held, txData.reason)` with no existence check. -/
def isHeld (σ : FGState) (h : Nat) : Bool × String :=
  let txData := σ.transactions h
  (txData.status == TxStatus.Held, txData.reason)

/-- `getTransactionStatus(_txHash)` — view; `"NOT_FOUND"` when the stored
`txHash` field is zero, otherwise the status serialized to its string, with
the contract's unreachable `"UNKNOWN"` fallback kept verbatim. -/
def getTransactionStatus (σ : FGState) (h : Nat) : String :=
  let txData := σ.transactions h
  if txData.txHash = 0 then "NOT_FOUND"
  else if txData.status = TxStatus.Pending then "PENDING"
  else if txData.status = TxStatus.Held then "HELD"
  else if txData.status = TxStatus.Verified then "VERIFIED"
  else if txData.status = TxStatus.Rejected then "REJECTED"
  else if txData.status = TxStatus.Completed then "COMPLETED"
  else "UNKNOWN"

/-- `setRelayer(_relayer, _authorized)` — `onlyOwner`.  Requires a nonzero
address; writes `authorizedRelayers[_relayer] = _authorized`, then either
promotes `_relayer` to primary, or — when deauthorizing the current primary —
falls back to `owner`. -/
def setRelayer (σ : FGState) (caller rl : Nat) (authorized : Bool) :
    Except FGError FGState :=
  if caller = σ.owner then
    if rl = 0 then
      Except.error FGError.ValidationError
    else
      let σ₁ := { σ with authorizedRelayers := setAuth σ.authorizedRelayers rl authorized }
      if authorized then
        Except.ok { σ₁ with relayer := rl }
      else if σ₁.relayer = rl then
        Except.ok { σ₁ with relayer := σ₁.owner }
      else
        Except.ok σ₁
  else
    Except.error FGError.AuthorizationError

/-- `transferOwnership(_newOwner)` — `onlyOwner`.  Requires a nonzero new
owner; replaces `owner` and touches nothing else. -/
def transferOwnership (σ : FGState) (caller newOwner : Nat) :
    Except FGError FGState :=
  if caller = σ.owner then
    if newOwner = 0 then
      Except.error FGError.ValidationError
    else
      Except.ok { σ with owner := newOwner }
  else
    Except.error FGError.AuthorizationError

/-- One external call to a mutating entry point, with its caller and the
block timestamp it observes. -/
inductive Op where
  | submit (now h s amount : Nat)
  | setVerif (caller now h : Nat) (verified : Bool) (reason : String)
  | hold (caller now h : Nat) (reason : String)
  | release (caller now h : Nat) (approved : Bool) (reason : String)
  | complete (caller now h : Nat)
  | setRel (caller rl : Nat) (authorized : Bool)
  | transferOwn (caller newOwner : Nat)

/-- Dispatch an external call. -/
def applyOp (σ : FGState) : Op → Except FGError FGState
  | Op.submit now h s amount => submitTxHash σ now h s amount
  | Op.setVerif caller now h v r => setVerification σ caller now h v r
  | Op.hold caller now h r => holdTransaction σ caller now h r
  | Op.release caller now h a r => releaseHeldTransaction σ caller now h a r
  | Op.complete caller now h => completeTransaction σ caller now h
  | Op.setRel caller rl a => setRelayer σ caller rl a
  | Op.transferOwn caller o => transferOwnership σ caller o

/-- Atomic revert semantics: a failing call leaves the ledger exactly as it
was. -/
def step (σ : FGState) (op : Op) : FGState :=
  match applyOp σ op with
  | Except.ok σ' => σ'
  | Except.error _ => σ

/-- Run a sequence of external calls. -/
def exec (σ : FGState) : List Op → FGState
  | [] => σ
  | op :: ops => exec (step σ op) ops

/-- States reachable from deployment by `deployer`. -/
inductive Reachable (deployer : Nat) : FGState → Prop where
  | init : Reachable deployer (initState deployer)
  | step {σ : FGState} (op : Op) : Reachable deployer σ → Reachable deployer (step σ op)

/-! ## Basic lemmas about the step semantics -/

theorem setTx_apply (m : Nat → Transaction) (k : Nat) (v : Transaction) (j : Nat) :
    setTx m k v j = if j = k then v else m j := rfl

theorem step_eq_of_error (σ : FGState) (op : Op) (e : FGError)
    (he : applyOp σ op = Except.error e) : step σ op = σ := by
  simp [step, he]

theorem step_eq_of_ok (σ σ' : FGState) (op : Op)
    (hok : applyOp σ op = Except.ok σ') : step σ op = σ' := by
  simp [step, hok]

/-! ## Claim theorems -/

/-- C10: `transferOwnership(newOwner)`, called by the owner with a nonzero
new owner, modifies only the `owner` field: `relayer`, `authorizedRelayers`
and `transactions` are unchanged, and every address has exactly the relayer
rights it had before (so the previous owner keeps the primary-relayer slot
and any `authorizedRelayers` membership, and the new owner gains no relayer
rights from the transfer). -/
theorem transferOwnership_frame (σ : FGState) (caller newOwner : Nat)
    (hc : caller = σ.owner) (hnz : newOwner ≠ 0) :
    transferOwnership σ caller newOwner = Except.ok { σ with owner := newOwner } ∧
    ({ σ with owner := newOwner } : FGState).relayer = σ.relayer ∧
    ({ σ with owner := newOwner } : FGState).authorizedRelayers = σ.authorizedRelayers ∧
    ({ σ with owner := newOwner } : FGState).transactions = σ.transactions ∧
    (∀ x, isAuthorizedRelayer { σ with owner := newOwner } x = isAuthorizedRelayer σ x) := by
  refine ⟨?_, rfl, rfl, rfl, fun x => rfl⟩
  simp [transferOwnership, hc, hnz]

/-- Witness for `transferOwnership_frame`: the deployer of `initState 1`
hands ownership to address 2. -/
theorem transferOwnership_frame_witness :
    transferOwnership (initState 1) 1 2 = Except.ok { initState 1 with owner := 2 } ∧
    ({ initState 1 with owner := 2 } : FGState).relayer = (initState 1).relayer ∧
    ({ initState 1 with owner := 2 } : FGState).authorizedRelayers = (initState 1).authorizedRelayers ∧
    ({ initState 1 with owner := 2 } : FGState).transactions = (initState 1).transactions ∧
    (∀ x, isAuthorizedRelayer { initState 1 with owner := 2 } x = isAuthorizedRelayer (initState 1) x) :=
  transferOwnership_frame (initState 1) 1 2 rfl (by decide)

/-- C6: the read operations are total: `getTransactionStatus` always returns
one of the six contract strings, returns `"NOT_FOUND"` exactly when the
stored `txHash` field is zero (in particular on any absent record), and
`isHeld` on an absent (default) record returns `(false, "")`. -/
theorem read_operations_total (σ : FGState) (h : Nat) :
    getTransactionStatus σ h ∈
      (["NOT_FOUND", "PENDING", "HELD", "VERIFIED", "REJECTED", "COMPLETED"] : List String) ∧
    ((σ.transactions h).txHash = 0 → getTransactionStatus σ h = "NOT_FOUND") ∧
    (σ.transactions h = defaultTransaction → isHeld σ h = (false, "")) := by
  refine ⟨?_, ?_, ?_⟩
  · by_cases h0 : (σ.transactions h).txHash = 0
    · simp [getTransactionStatus, h0]
    · cases hs : (σ.transactions h).status <;> simp [getTransactionStatus, h0, hs]
  · intro h0
    simp [getTransactionStatus, h0]
  · intro hd
    simp [isHeld, hd, defaultTransaction]

/-- Witness for `read_operations_total`: reads on the fresh ledger at hash 5. -/
theorem read_operations_total_witness :
    getTransactionStatus (initState 1) 5 ∈
      (["NOT_FOUND", "PENDING", "HELD", "VERIFIED", "REJECTED", "COMPLETED"] : List String) ∧
    getTransactionStatus (initState 1) 5 = "NOT_FOUND" ∧
    isHeld (initState 1) 5 = (false, "") :=
  ⟨(read_operations_total (initState 1) 5).1,
   (read_operations_total (initState 1) 5).2.1 (by decide),
   (read_operations_total (initState 1) 5).2.2 rfl⟩

/-- C5: role gating.  A caller that is neither the primary relayer nor in
`authorizedRelayers` always fails the relayer-only operations
(`setVerification`, `holdTransaction`) with AuthorizationError, and a caller
other than `owner` always fails the owner-only operations
(`releaseHeldTransaction`, `completeTransaction`, `setRelayer`,
`transferOwnership`) with AuthorizationError; in every case the whole state
is left unchanged. -/
theorem role_gating_authorization (σ : FGState) (caller now h rl newOwner : Nat)
    (v au : Bool) (r : String) :
    (isAuthorizedRelayer σ caller = false →
      setVerification σ caller now h v r = Except.error FGError.AuthorizationError ∧
      holdTransaction σ caller now h r = Except.error FGError.AuthorizationError ∧
      step σ (Op.setVerif caller now h v r) = σ ∧
      step σ (Op.hold caller now h r) = σ) ∧
    (caller ≠ σ.owner →
      releaseHeldTransaction σ caller now h v r = Except.error FGError.AuthorizationError ∧
      completeTransaction σ caller now h = Except.error FGError.AuthorizationError ∧
      setRelayer σ caller rl au = Except.error FGError.AuthorizationError ∧
      transferOwnership σ caller newOwner = Except.error FGError.AuthorizationError ∧
      step σ (Op.release caller now h v r) = σ ∧
      step σ (Op.complete caller now h) = σ ∧
      step σ (Op.setRel caller rl au) = σ ∧
      step σ (Op.transferOwn caller newOwner) = σ) := by
  constructor
  · intro hnr
    refine ⟨?_, ?_, ?_, ?_⟩ <;>
      simp [step, applyOp, setVerification, holdTransaction, hnr]
  · intro hno
    refine ⟨?_, ?_, ?_, ?_, ?_, ?_, ?_, ?_⟩ <;>
      simp [step, applyOp, releaseHeldTransaction, completeTransaction,
        setRelayer, transferOwnership, hno]

/-- Witness for `role_gating_authorization`: address 2 is neither a relayer
nor the owner of the fresh ledger, and every gated entry point rejects it. -/
theorem role_gating_authorization_witness :
    (setVerification (initState 1) 2 10 5 true "x" = Except.error FGError.AuthorizationError ∧
     holdTransaction (initState 1) 2 10 5 "x" = Except.error FGError.AuthorizationError ∧
     step (initState 1) (Op.setVerif 2 10 5 true "x") = initState 1 ∧
     step (initState 1) (Op.hold 2 10 5 "x") = initState 1) ∧
    (releaseHeldTransaction (initState 1) 2 10 5 true "x" = Except.error FGError.AuthorizationError ∧
     completeTransaction (initState 1) 2 10 5 = Except.error FGError.AuthorizationError ∧
     setRelayer (initState 1) 2 7 true = Except.error FGError.AuthorizationError ∧
     transferOwnership (initState 1) 2 7 = Except.error FGError.AuthorizationError ∧
     step (initState 1) (Op.release 2 10 5 true "x") = initState 1 ∧
     step (initState 1) (Op.complete 2 10 5) = initState 1 ∧
     step (initState 1) (Op.setRel 2 7 true) = initState 1 ∧
     step (initState 1) (Op.transferOwn 2 7) = initState 1) :=
  ⟨(role_gating_authorization (initState 1) 2 10 5 7 7 true true "x").1 (by decide),
   (role_gating_authorization (initState 1) 2 10 5 7 7 true true "x").2 (by decide)⟩

/-- C3: `setVerification`, called by an authorized relayer on an existing
record, succeeds with no precondition on the current status — including
`Completed` and `Rejected` — and sets the status to `Verified` when
`verified` is true and to `Rejected` otherwise, overwriting the stored
reason in both cases. -/
theorem setVerification_status_unguarded (σ : FGState) (caller now h : Nat)
    (v : Bool) (r : String)
    (hauth : isAuthorizedRelayer σ caller = true)
    (hex : (σ.transactions h).txHash ≠ 0) :
    Except.isOk (setVerification σ caller now h v r) = true ∧
    ((step σ (Op.setVerif caller now h v r)).transactions h).status =
      (if v then TxStatus.Verified else TxStatus.Rejected) ∧
    ((step σ (Op.setVerif caller now h v r)).transactions h).reason = r := by
  cases v <;>
    simp [setVerification, step, applyOp, hauth, hex, setTx, Except.isOk, Except.toBool]

/-- Witness for `setVerification_status_unguarded`: the relayer overwrites a
`Completed` record (hash 7 was submitted, verified and completed) back to
`Rejected`, replacing the reason. -/
theorem setVerification_status_unguarded_witness :
    isAuthorizedRelayer
      (exec (initState 1) [Op.submit 10 7 2 100, Op.setVerif 1 11 7 true "ok", Op.complete 1 12 7]) 1 = true ∧
    ((exec (initState 1) [Op.submit 10 7 2 100, Op.setVerif 1 11 7 true "ok", Op.complete 1 12 7]).transactions 7).status = TxStatus.Completed ∧
    Except.isOk (setVerification
      (exec (initState 1) [Op.submit 10 7 2 100, Op.setVerif 1 11 7 true "ok", Op.complete 1 12 7])
      1 13 7 false "fraud") = true ∧
    ((step (exec (initState 1) [Op.submit 10 7 2 100, Op.setVerif 1 11 7 true "ok", Op.complete 1 12 7])
        (Op.setVerif 1 13 7 false "fraud")).transactions 7).status =
      (if false then TxStatus.Verified else TxStatus.Rejected) ∧
    ((step (exec (initState 1) [Op.submit 10 7 2 100, Op.setVerif 1 11 7 true "ok", Op.complete 1 12 7])
        (Op.setVerif 1 13 7 false "fraud")).transactions 7).reason = "fraud" :=
  ⟨by decide, by decide,
   (setVerification_status_unguarded
     (exec (initState 1) [Op.submit 10 7 2 100, Op.setVerif 1 11 7 true "ok", Op.complete 1 12 7])
     1 13 7 false "fraud" (by decide) (by decide)).1,
   (setVerification_status_unguarded
     (exec (initState 1) [Op.submit 10 7 2 100, Op.setVerif 1 11 7 true "ok", Op.complete 1 12 7])
     1 13 7 false "fraud" (by decide) (by decide)).2.1,
   (setVerification_status_unguarded
     (exec (initState 1) [Op.submit 10 7 2 100, Op.setVerif 1 11 7 true "ok", Op.complete 1 12 7])
     1 13 7 false "fraud" (by decide) (by decide)).2.2⟩

/-- C4: state-guarded transitions on an existing record.  For an authorized
relayer, `holdTransaction` succeeds iff the status is `Pending`; for the
owner, `releaseHeldTransaction` succeeds iff `Held` and
`completeTransaction` succeeds iff `Verified`; from any other status each
of the three fails with InvalidStateError and leaves the state (hence the
record's status) unchanged. -/
theorem state_guarded_transitions (σ : FGState) (caller now h : Nat)
    (ap : Bool) (r : String)
    (hex : (σ.transactions h).txHash ≠ 0) :
    (isAuthorizedRelayer σ caller = true →
      (Except.isOk (holdTransaction σ caller now h r) = true ↔
        (σ.transactions h).status = TxStatus.Pending) ∧
      ((σ.transactions h).status ≠ TxStatus.Pending →
        holdTransaction σ caller now h r = Except.error FGError.InvalidStateError ∧
        step σ (Op.hold caller now h r) = σ)) ∧
    (caller = σ.owner →
      ((Except.isOk (releaseHeldTransaction σ caller now h ap r) = true ↔
          (σ.transactions h).status = TxStatus.Held) ∧
       ((σ.transactions h).status ≠ TxStatus.Held →
         releaseHeldTransaction σ caller now h ap r = Except.error FGError.InvalidStateError ∧
         step σ (Op.release caller now h ap r) = σ)) ∧
      ((Except.isOk (completeTransaction σ caller now h) = true ↔
          (σ.transactions h).status = TxStatus.Verified) ∧
       ((σ.transactions h).status ≠ TxStatus.Verified →
         completeTransaction σ caller now h = Except.error FGError.InvalidStateError ∧
         step σ (Op.complete caller now h) = σ))) := by
  constructor
  · intro hauth
    constructor
    · by_cases hs : (σ.transactions h).status = TxStatus.Pending <;>
        simp [holdTransaction, hauth, hex, hs, Except.isOk, Except.toBool]
    · intro hs
      constructor <;>
        simp [holdTransaction, step, applyOp, hauth, hex, hs]
  · intro hown
    refine ⟨⟨?_, ?_⟩, ?_, ?_⟩
    · by_cases hs : (σ.transactions h).status = TxStatus.Held
      · cases ap <;>
          simp [releaseHeldTransaction, hown, hex, hs, Except.isOk, Except.toBool]
      · simp [releaseHeldTransaction, hown, hex, hs, Except.isOk, Except.toBool]
    · intro hs
      constructor <;>
        simp [releaseHeldTransaction, step, applyOp, hown, hex, hs]
    · by_cases hs : (σ.transactions h).status = TxStatus.Verified <;>
        simp [completeTransaction, hown, hex, hs, Except.isOk, Except.toBool]
    · intro hs
      constructor <;>
        simp [completeTransaction, step, applyOp, hown, hex, hs]

/-- Witness for `state_guarded_transitions`: hash 7 was submitted and then
held, so `releaseHeldTransaction` succeeds while `holdTransaction` and
`completeTransaction` fail with InvalidStateError from status `Held`. -/
theorem state_guarded_transitions_witness :
    (Except.isOk (holdTransaction (exec (initState 1) [Op.submit 10 7 2 100, Op.hold 1 11 7 "risk"]) 1 12 7 "x") = true ↔
        ((exec (initState 1) [Op.submit 10 7 2 100, Op.hold 1 11 7 "risk"]).transactions 7).status = TxStatus.Pending) ∧
    (holdTransaction (exec (initState 1) [Op.submit 10 7 2 100, Op.hold 1 11 7 "risk"]) 1 12 7 "x" = Except.error FGError.InvalidStateError ∧
        step (exec (initState 1) [Op.submit 10 7 2 100, Op.hold 1 11 7 "risk"]) (Op.hold 1 12 7 "x") =
          exec (initState 1) [Op.submit 10 7 2 100, Op.hold 1 11 7 "risk"]) ∧
    (Except.isOk (releaseHeldTransaction (exec (initState 1) [Op.submit 10 7 2 100, Op.hold 1 11 7 "risk"]) 1 12 7 true "x") = true ↔
        ((exec (initState 1) [Op.submit 10 7 2 100, Op.hold 1 11 7 "risk"]).transactions 7).status = TxStatus.Held) ∧
    (Except.isOk (completeTransaction (exec (initState 1) [Op.submit 10 7 2 100, Op.hold 1 11 7 "risk"]) 1 12 7) = true ↔
        ((exec (initState 1) [Op.submit 10 7 2 100, Op.hold 1 11 7 "risk"]).transactions 7).status = TxStatus.Verified) ∧
    (completeTransaction (exec (initState 1) [Op.submit 10 7 2 100, Op.hold 1 11 7 "risk"]) 1 12 7 = Except.error FGError.InvalidStateError ∧
        step (exec (initState 1) [Op.submit 10 7 2 100, Op.hold 1 11 7 "risk"]) (Op.complete 1 12 7) =
          exec (initState 1) [Op.submit 10 7 2 100, Op.hold 1 11 7 "risk"]) := by
  refine ⟨?_, ?_, ?_, ?_, ?_⟩
  · exact ((state_guarded_transitions
      (exec (initState 1) [Op.submit 10 7 2 100, Op.hold 1 11 7 "risk"])
      1 12 7 true "x" (by decide)).1 (by decide)).1
  · exact ((state_guarded_transitions
      (exec (initState 1) [Op.submit 10 7 2 100, Op.hold 1 11 7 "risk"])
      1 12 7 true "x" (by decide)).1 (by decide)).2 (by decide)
  · exact (((state_guarded_transitions
      (exec (initState 1) [Op.submit 10 7 2 100, Op.hold 1 11 7 "risk"])
      1 12 7 true "x" (by decide)).2 (by decide)).1).1
  · exact (((state_guarded_transitions
      (exec (initState 1) [Op.submit 10 7 2 100, Op.hold 1 11 7 "risk"])
      1 12 7 true "x" (by decide)).2 (by decide)).2).1
  · exact (((state_guarded_transitions
      (exec (initState 1) [Op.submit 10 7 2 100, Op.hold 1 11 7 "risk"])
      1 12 7 true "x" (by decide)).2 (by decide)).2).2 (by decide)

/-- C7 counterexample: `submitTxHash(h, s, 0)` does NOT always fail with
ValidationError.  After hash 3 has been successfully submitted, a
zero-amount resubmission of hash 3 hits the duplicate check first and fails
with DuplicateError instead. -/
theorem submit_zero_amount_duplicate_first :
    ((exec (initState 1) [Op.submit 10 3 2 100]).transactions 3).txHash = 3 ∧
    submitTxHash (exec (initState 1) [Op.submit 10 3 2 100]) 11 3 4 0 =
      Except.error FGError.DuplicateError ∧
    submitTxHash (exec (initState 1) [Op.submit 10 3 2 100]) 11 3 4 0 ≠
      Except.error FGError.ValidationError := by
  refine ⟨by decide, rfl, ?_⟩
  intro hcon
  rw [show submitTxHash (exec (initState 1) [Op.submit 10 3 2 100]) 11 3 4 0 =
      Except.error FGError.DuplicateError from rfl] at hcon
  exact absurd (Except.error.inj hcon) (by decide)

/-- C7 as amended: `submitTxHash(h, s, 0)` always fails and never creates or
changes a record; it fails with ValidationError exactly when no record
exists for `h` (stored `txHash` is zero), and with DuplicateError when one
does (the duplicate check runs first). -/
theorem submit_zero_amount_always_fails (σ : FGState) (now h s : Nat) :
    ((σ.transactions h).txHash = 0 →
      submitTxHash σ now h s 0 = Except.error FGError.ValidationError) ∧
    ((σ.transactions h).txHash ≠ 0 →
      submitTxHash σ now h s 0 = Except.error FGError.DuplicateError) ∧
    step σ (Op.submit now h s 0) = σ := by
  refine ⟨fun h0 => ?_, fun h0 => ?_, ?_⟩
  · simp [submitTxHash, h0]
  · simp [submitTxHash, h0]
  · by_cases h0 : (σ.transactions h).txHash = 0 <;>
      simp [step, applyOp, submitTxHash, h0]

/-- Witness for `submit_zero_amount_always_fails`: a zero-amount submission
of the unused hash 3 fails with ValidationError on the fresh ledger, and
with DuplicateError once hash 3 exists; neither changes the state. -/
theorem submit_zero_amount_always_fails_witness :
    submitTxHash (initState 1) 10 3 2 0 = Except.error FGError.ValidationError ∧
    submitTxHash (exec (initState 1) [Op.submit 10 3 2 100]) 11 3 2 0 =
      Except.error FGError.DuplicateError ∧
    step (initState 1) (Op.submit 10 3 2 0) = initState 1 :=
  ⟨(submit_zero_amount_always_fails (initState 1) 10 3 2).1 (by decide),
   (submit_zero_amount_always_fails (exec (initState 1) [Op.submit 10 3 2 100]) 11 3 2).2.1 (by decide),
   (submit_zero_amount_always_fails (initState 1) 10 3 2).2.2⟩

/-- C9: the all-zero hash is an interface edge case.  Since existence is
tested by comparing the stored `txHash` field to zero, a successful
`submitTxHash(0, s, a)` leaves hash 0 still looking absent: a second
`submitTxHash(0, s', a')` with `a' > 0` succeeds again and overwrites the
prior record, and `getTransactionStatus(0)` returns `"NOT_FOUND"` right
after the first submission succeeded. -/
theorem zero_hash_resubmission (σ σ₁ : FGState) (now s a now' s' a' : Nat)
    (ha' : 0 < a')
    (h1 : submitTxHash σ now 0 s a = Except.ok σ₁) :
    getTransactionStatus σ₁ 0 = "NOT_FOUND" ∧
    Except.isOk (submitTxHash σ₁ now' 0 s' a') = true ∧
    (step σ₁ (Op.submit now' 0 s' a')).transactions 0 =
      { txHash := 0, sender := s', amount := a', timestamp := now',
        status := TxStatus.Pending, reason := "" } := by
  have hz : σ₁.transactions 0 =
      { txHash := 0, sender := s, amount := a, timestamp := now,
        status := TxStatus.Pending, reason := "" } := by
    unfold submitTxHash at h1
    split at h1
    · cases h1
    · split at h1
      · cases h1
        simp [setTx]
      · cases h1
  refine ⟨?_, ?_, ?_⟩
  · simp [getTransactionStatus, hz]
  · simp [submitTxHash, hz, ha', Except.isOk, Except.toBool]
  · simp [step, applyOp, submitTxHash, hz, ha', setTx]

/-- Witness for `zero_hash_resubmission`: hash 0 is submitted with amount
100, reads as `NOT_FOUND`, and is overwritten by a second submission with
amount 7. -/
theorem zero_hash_resubmission_witness :
    getTransactionStatus (step (initState 1) (Op.submit 10 0 2 100)) 0 = "NOT_FOUND" ∧
    Except.isOk (submitTxHash (step (initState 1) (Op.submit 10 0 2 100)) 11 0 3 7) = true ∧
    (step (step (initState 1) (Op.submit 10 0 2 100)) (Op.submit 11 0 3 7)).transactions 0 =
      { txHash := 0, sender := 3, amount := 7, timestamp := 11,
        status := TxStatus.Pending, reason := "" } :=
  zero_hash_resubmission (initState 1) (step (initState 1) (Op.submit 10 0 2 100))
    10 2 100 11 3 7 (by decide) rfl

/-- Any step of the system leaves the `txHash` field of an existing record
(one whose stored `txHash` is nonzero) unchanged: the transition operations
only touch `status`/`reason`, and `submitTxHash` refuses to overwrite a
record whose stored `txHash` is nonzero. -/
theorem step_preserves_existing_txHash (σ : FGState) (op : Op) (h : Nat)
    (hnz : (σ.transactions h).txHash ≠ 0) :
    ((step σ op).transactions h).txHash = (σ.transactions h).txHash := by
  cases op with
  | submit now h' s a =>
      rcases eq_or_ne h h' with he | he
      · subst he
        simp [step, applyOp, submitTxHash, hnz]
      · by_cases h0 : (σ.transactions h').txHash = 0
        · by_cases ha : 0 < a <;>
            simp [step, applyOp, submitTxHash, h0, ha, setTx, he]
        · simp [step, applyOp, submitTxHash, h0]
  | setVerif c n h' v r =>
      by_cases hauth : isAuthorizedRelayer σ c = true
      · by_cases h0 : (σ.transactions h').txHash = 0
        · simp [step, applyOp, setVerification, hauth, h0]
        · cases v <;> rcases eq_or_ne h h' with he | he <;>
            simp [step, applyOp, setVerification, hauth, h0, setTx, he]
      · simp [step, applyOp, setVerification, hauth]
  | hold c n h' r =>
      by_cases hauth : isAuthorizedRelayer σ c = true
      · by_cases h0 : (σ.transactions h').txHash = 0
        · simp [step, applyOp, holdTransaction, hauth, h0]
        · by_cases hs : (σ.transactions h').status = TxStatus.Pending <;>
            rcases eq_or_ne h h' with he | he <;>
            simp [step, applyOp, holdTransaction, hauth, h0, hs, setTx, he]
      · simp [step, applyOp, holdTransaction, hauth]
  | release c n h' ap r =>
      by_cases hc : c = σ.owner
      · by_cases h0 : (σ.transactions h').txHash = 0
        · simp [step, applyOp, releaseHeldTransaction, hc, h0]
        · cases ap <;>
            by_cases hs : (σ.transactions h').status = TxStatus.Held <;>
            rcases eq_or_ne h h' with he | he <;>
            simp [step, applyOp, releaseHeldTransaction, hc, h0, hs, setTx, he]
      · simp [step, applyOp, releaseHeldTransaction, hc]
  | complete c n h' =>
      by_cases hc : c = σ.owner
      · by_cases h0 : (σ.transactions h').txHash = 0
        · simp [step, applyOp, completeTransaction, hc, h0]
        · by_cases hs : (σ.transactions h').status = TxStatus.Verified <;>
            rcases eq_or_ne h h' with he | he <;>
            simp [step, applyOp, completeTransaction, hc, h0, hs, setTx, he]
      · simp [step, applyOp, completeTransaction, hc]
  | setRel c rl au =>
      by_cases hc : c = σ.owner
      · by_cases h0 : rl = 0
        · simp [step, applyOp, setRelayer, hc, h0]
        · cases au
          · by_cases hrl : σ.relayer = rl <;>
              simp [step, applyOp, setRelayer, hc, h0, hrl]
          · simp [step, applyOp, setRelayer, hc, h0]
      · simp [step, applyOp, setRelayer, hc]
  | transferOwn c o =>
      by_cases hc : c = σ.owner
      · by_cases h0 : o = 0 <;> simp [step, applyOp, transferOwnership, hc, h0]
      · simp [step, applyOp, transferOwnership, hc]

/-- Running any call sequence leaves the `txHash` field of an existing
record unchanged. -/
theorem exec_preserves_existing_txHash (ops : List Op) (σ : FGState) (h : Nat)
    (hnz : (σ.transactions h).txHash ≠ 0) :
    ((exec σ ops).transactions h).txHash = (σ.transactions h).txHash := by
  induction ops generalizing σ with
  | nil => rfl
  | cons op ops ih =>
      have h1 := step_preserves_existing_txHash σ op h hnz
      have h2 := ih (step σ op) (by rw [h1]; exact hnz)
      calc ((exec (step σ op) ops).transactions h).txHash
          = ((step σ op).transactions h).txHash := h2
        _ = (σ.transactions h).txHash := h1

/-- C1 counterexample: for the all-zero hash the claim fails.  The first
`submitTxHash(0, 2, 100)` succeeds, yet a subsequent `submitTxHash(0, 3, 7)`
succeeds as well — it does not fail with DuplicateError — and it replaces
the existing record (the stored sender changes from 2 to 3). -/
theorem zero_hash_breaks_duplicate_guard :
    Except.isOk (submitTxHash (initState 1) 10 0 2 100) = true ∧
    Except.isOk (submitTxHash (step (initState 1) (Op.submit 10 0 2 100)) 11 0 3 7) = true ∧
    submitTxHash (step (initState 1) (Op.submit 10 0 2 100)) 11 0 3 7 ≠
      Except.error FGError.DuplicateError ∧
    ((step (initState 1) (Op.submit 10 0 2 100)).transactions 0).sender = 2 ∧
    ((step (step (initState 1) (Op.submit 10 0 2 100)) (Op.submit 11 0 3 7)).transactions 0).sender = 3 := by
  refine ⟨rfl, rfl, ?_, by decide, by decide⟩
  intro hcon
  have hok : Except.isOk (submitTxHash (step (initState 1) (Op.submit 10 0 2 100)) 11 0 3 7) = true := rfl
  rw [hcon] at hok
  exact absurd hok (by decide)

/-- C1 as amended: for every NONZERO hash `h`, once `submitTxHash(h, s, a)`
has succeeded, every subsequent `submitTxHash(h, s', a')` — after any
further call sequence, by any caller, with any sender and amount — fails
with DuplicateError and leaves the state (hence the record for `h`)
unchanged. -/
theorem nonzero_submit_duplicate_forever (σ σ₁ : FGState) (now h s a : Nat)
    (hne : h ≠ 0)
    (hsub : submitTxHash σ now h s a = Except.ok σ₁)
    (ops : List Op) (now' s' a' : Nat) :
    submitTxHash (exec σ₁ ops) now' h s' a' = Except.error FGError.DuplicateError ∧
    step (exec σ₁ ops) (Op.submit now' h s' a') = exec σ₁ ops := by
  have hx : (σ₁.transactions h).txHash = h := by
    unfold submitTxHash at hsub
    split at hsub
    · cases hsub
    · split at hsub
      · cases hsub
        simp [setTx]
      · cases hsub
  have hnz : ((exec σ₁ ops).transactions h).txHash ≠ 0 := by
    rw [exec_preserves_existing_txHash ops σ₁ h (by rw [hx]; exact hne), hx]
    exact hne
  refine ⟨?_, ?_⟩
  · simp [submitTxHash, hnz]
  · simp [step, applyOp, submitTxHash, hnz]

/-- Witness for `nonzero_submit_duplicate_forever`: hash 5 is submitted,
then verified; resubmitting hash 5 afterwards fails with DuplicateError and
changes nothing. -/
theorem nonzero_submit_duplicate_forever_witness :
    submitTxHash (exec (step (initState 1) (Op.submit 10 5 2 100)) [Op.setVerif 1 11 5 true "ok"]) 12 5 3 7 =
      Except.error FGError.DuplicateError ∧
    step (exec (step (initState 1) (Op.submit 10 5 2 100)) [Op.setVerif 1 11 5 true "ok"]) (Op.submit 12 5 3 7) =
      exec (step (initState 1) (Op.submit 10 5 2 100)) [Op.setVerif 1 11 5 true "ok"] :=
  nonzero_submit_duplicate_forever (initState 1) (step (initState 1) (Op.submit 10 5 2 100))
    10 5 2 100 (by decide) rfl [Op.setVerif 1 11 5 true "ok"] 12 3 7

/-- C2 counterexample: `Rejected` is not terminal under `setVerification`.
Hash 5 is submitted and rejected, and a later `setVerification(5, true, …)`
moves its status from `Rejected` back to `Verified`. -/
theorem setVerification_escapes_rejected :
    ((exec (initState 1) [Op.submit 10 5 2 100, Op.setVerif 1 11 5 false "bad"]).transactions 5).status =
      TxStatus.Rejected ∧
    ((exec (initState 1) [Op.submit 10 5 2 100, Op.setVerif 1 11 5 false "bad",
        Op.setVerif 1 12 5 true "ok"]).transactions 5).status = TxStatus.Verified :=
  ⟨by decide, by decide⟩

/-- C2 as amended: `Rejected` and `Completed` are terminal for every
operation EXCEPT `setVerification`: if the existing record for `h` has
status `Rejected` or `Completed`, then any call that is not a
`setVerification` on `h` leaves that status unchanged (while
`setVerification` can change it, see the counterexample). -/
theorem terminal_except_setVerification (σ : FGState) (h : Nat) (op : Op)
    (hex : (σ.transactions h).txHash ≠ 0)
    (hterm : (σ.transactions h).status = TxStatus.Rejected ∨
             (σ.transactions h).status = TxStatus.Completed)
    (hnsv : ∀ c n v r, op ≠ Op.setVerif c n h v r) :
    ((step σ op).transactions h).status = (σ.transactions h).status := by
  cases op with
  | submit now h' s a =>
      rcases eq_or_ne h h' with he | he
      · subst he
        simp [step, applyOp, submitTxHash, hex]
      · by_cases h0 : (σ.transactions h').txHash = 0
        · by_cases ha : 0 < a <;>
            simp [step, applyOp, submitTxHash, h0, ha, setTx, he]
        · simp [step, applyOp, submitTxHash, h0]
  | setVerif c n h' v r =>
      rcases eq_or_ne h h' with he | he
      · subst he
        exact absurd rfl (hnsv c n v r)
      · by_cases hauth : isAuthorizedRelayer σ c = true
        · by_cases h0 : (σ.transactions h').txHash = 0
          · simp [step, applyOp, setVerification, hauth, h0]
          · cases v <;>
              simp [step, applyOp, setVerification, hauth, h0, setTx, he]
        · simp [step, applyOp, setVerification, hauth]
  | hold c n h' r =>
      rcases eq_or_ne h h' with he | he
      · subst he
        have hs : (σ.transactions h).status ≠ TxStatus.Pending := by
          rcases hterm with h1 | h1 <;> simp [h1]
        by_cases hauth : isAuthorizedRelayer σ c = true
        · simp [step, applyOp, holdTransaction, hauth, hex, hs]
        · simp [step, applyOp, holdTransaction, hauth]
      · by_cases hauth : isAuthorizedRelayer σ c = true
        · by_cases h0 : (σ.transactions h').txHash = 0
          · simp [step, applyOp, holdTransaction, hauth, h0]
          · by_cases hs : (σ.transactions h').status = TxStatus.Pending <;>
              simp [step, applyOp, holdTransaction, hauth, h0, hs, setTx, he]
        · simp [step, applyOp, holdTransaction, hauth]
  | release c n h' ap r =>
      rcases eq_or_ne h h' with he | he
      · subst he
        have hs : (σ.transactions h).status ≠ TxStatus.Held := by
          rcases hterm with h1 | h1 <;> simp [h1]
        by_cases hc : c = σ.owner
        · simp [step, applyOp, releaseHeldTransaction, hc, hex, hs]
        · simp [step, applyOp, releaseHeldTransaction, hc]
      · by_cases hc : c = σ.owner
        · by_cases h0 : (σ.transactions h').txHash = 0
          · simp [step, applyOp, releaseHeldTransaction, hc, h0]
          · cases ap <;>
              by_cases hs : (σ.transactions h').status = TxStatus.Held <;>
              simp [step, applyOp, releaseHeldTransaction, hc, h0, hs, setTx, he]
        · simp [step, applyOp, releaseHeldTransaction, hc]
  | complete c n h' =>
      rcases eq_or_ne h h' with he | he
      · subst he
        have hs : (σ.transactions h).status ≠ TxStatus.Verified := by
          rcases hterm with h1 | h1 <;> simp [h1]
        by_cases hc : c = σ.owner
        · simp [step, applyOp, completeTransaction, hc, hex, hs]
        · simp [step, applyOp, completeTransaction, hc]
      · by_cases hc : c = σ.owner
        · by_cases h0 : (σ.transactions h').txHash = 0
          · simp [step, applyOp, completeTransaction, hc, h0]
          · by_cases hs : (σ.transactions h').status = TxStatus.Verified <;>
              simp [step, applyOp, completeTransaction, hc, h0, hs, setTx, he]
        · simp [step, applyOp, completeTransaction, hc]
  | setRel c rl au =>
      by_cases hc : c = σ.owner
      · by_cases h0 : rl = 0
        · simp [step, applyOp, setRelayer, hc, h0]
        · cases au
          · by_cases hrl : σ.relayer = rl <;>
              simp [step, applyOp, setRelayer, hc, h0, hrl]
          · simp [step, applyOp, setRelayer, hc, h0]
      · simp [step, applyOp, setRelayer, hc]
  | transferOwn c o =>
      by_cases hc : c = σ.owner
      · by_cases h0 : o = 0 <;> simp [step, applyOp, transferOwnership, hc, h0]
      · simp [step, applyOp, transferOwnership, hc]

/-- Witness for `terminal_except_setVerification`: hash 5 sits at
`Rejected`, and a `holdTransaction` attempt on it leaves the status at
`Rejected`. -/
theorem terminal_except_setVerification_witness :
    ((step (exec (initState 1) [Op.submit 10 5 2 100, Op.setVerif 1 11 5 false "bad"])
        (Op.hold 1 12 5 "again")).transactions 5).status =
      ((exec (initState 1) [Op.submit 10 5 2 100, Op.setVerif 1 11 5 false "bad"]).transactions 5).status :=
  terminal_except_setVerification
    (exec (initState 1) [Op.submit 10 5 2 100, Op.setVerif 1 11 5 false "bad"])
    5 (Op.hold 1 12 5 "again") (by decide) (Or.inl (by decide))
    (fun c n v r hcon => Op.noConfusion hcon)

/-- One step preserves "owner and primary relayer are nonzero": the registry
operations never touch them, `transferOwnership` validates the new owner,
and `setRelayer` validates the address and falls back to the (nonzero)
owner when the primary relayer is deauthorized. -/
theorem step_preserves_nonzero_auth (σ : FGState) (op : Op)
    (ho : σ.owner ≠ 0) (hr : σ.relayer ≠ 0) :
    (step σ op).owner ≠ 0 ∧ (step σ op).relayer ≠ 0 := by
  cases op with
  | submit now h s a =>
      by_cases h0 : (σ.transactions h).txHash = 0
      · by_cases ha : 0 < a <;>
          simp [step, applyOp, submitTxHash, h0, ha] <;> exact ⟨ho, hr⟩
      · simp [step, applyOp, submitTxHash, h0]
        exact ⟨ho, hr⟩
  | setVerif c n h v r =>
      by_cases hauth : isAuthorizedRelayer σ c = true
      · by_cases h0 : (σ.transactions h).txHash = 0
        · simp [step, applyOp, setVerification, hauth, h0]
          exact ⟨ho, hr⟩
        · cases v <;> simp [step, applyOp, setVerification, hauth, h0] <;> exact ⟨ho, hr⟩
      · simp [step, applyOp, setVerification, hauth]
        exact ⟨ho, hr⟩
  | hold c n h r =>
      by_cases hauth : isAuthorizedRelayer σ c = true
      · by_cases h0 : (σ.transactions h).txHash = 0
        · simp [step, applyOp, holdTransaction, hauth, h0]
          exact ⟨ho, hr⟩
        · by_cases hs : (σ.transactions h).status = TxStatus.Pending <;>
            simp [step, applyOp, holdTransaction, hauth, h0, hs] <;> exact ⟨ho, hr⟩
      · simp [step, applyOp, holdTransaction, hauth]
        exact ⟨ho, hr⟩
  | release c n h ap r =>
      by_cases hc : c = σ.owner
      · by_cases h0 : (σ.transactions h).txHash = 0
        · simp [step, applyOp, releaseHeldTransaction, hc, h0]
          exact ⟨ho, hr⟩
        · cases ap <;> by_cases hs : (σ.transactions h).status = TxStatus.Held <;>
            simp [step, applyOp, releaseHeldTransaction, hc, h0, hs] <;> exact ⟨ho, hr⟩
      · simp [step, applyOp, releaseHeldTransaction, hc]
        exact ⟨ho, hr⟩
  | complete c n h =>
      by_cases hc : c = σ.owner
      · by_cases h0 : (σ.transactions h).txHash = 0
        · simp [step, applyOp, completeTransaction, hc, h0]
          exact ⟨ho, hr⟩
        · by_cases hs : (σ.transactions h).status = TxStatus.Verified <;>
            simp [step, applyOp, completeTransaction, hc, h0, hs] <;> exact ⟨ho, hr⟩
      · simp [step, applyOp, completeTransaction, hc]
        exact ⟨ho, hr⟩
  | setRel c rl au =>
      by_cases hc : c = σ.owner
      · by_cases h0 : rl = 0
        · simp [step, applyOp, setRelayer, hc, h0]
          exact ⟨ho, hr⟩
        · cases au
          · by_cases hrl : σ.relayer = rl
            · simp [step, applyOp, setRelayer, hc, h0, hrl]
              exact ho
            · simp [step, applyOp, setRelayer, hc, h0, hrl]
              exact ⟨ho, hr⟩
          · simp [step, applyOp, setRelayer, hc, h0]
            exact ho
      · simp [step, applyOp, setRelayer, hc]
        exact ⟨ho, hr⟩
  | transferOwn c o =>
      by_cases hc : c = σ.owner
      · by_cases h0 : o = 0
        · simp [step, applyOp, transferOwnership, hc, h0]
          exact ⟨ho, hr⟩
        · simp [step, applyOp, transferOwnership, hc, h0]
          exact hr
      · simp [step, applyOp, transferOwnership, hc]
        exact ⟨ho, hr⟩

/-- C8: in every state reachable from deployment by a nonzero deployer —
who becomes both owner and primary relayer — `owner` and `relayer` are
never the zero address; in particular `transferOwnership` and `setRelayer`
(including its fallback of the primary relayer to `owner`) preserve this. -/
theorem owner_relayer_nonzero_invariant (d : Nat) (σ : FGState)
    (hd : d ≠ 0) (hσ : Reachable d σ) :
    σ.owner ≠ 0 ∧ σ.relayer ≠ 0 := by
  induction hσ with
  | init => exact ⟨hd, hd⟩
  | step op _ ih => exact step_preserves_nonzero_auth _ op ih.1 ih.2

/-- Witness for `owner_relayer_nonzero_invariant`: after authorizing relayer
4, deauthorizing it (primary falls back to the owner) and transferring
ownership to 9, owner and primary relayer are still nonzero. -/
theorem owner_relayer_nonzero_invariant_witness :
    (step (step (step (initState 1) (Op.setRel 1 4 true)) (Op.setRel 1 4 false))
        (Op.transferOwn 1 9)).owner ≠ 0 ∧
    (step (step (step (initState 1) (Op.setRel 1 4 true)) (Op.setRel 1 4 false))
        (Op.transferOwn 1 9)).relayer ≠ 0 :=
  owner_relayer_nonzero_invariant 1 _ (by decide)
    (Reachable.step _ (Reachable.step _ (Reachable.step _ Reachable.init)))

end FraudGuard
